import Mathlib

/-!
Shallow embedding of the reconciliation core of `streamlit_ev`
(`app/helpers/updater.py`): schema-definition construction, health
checking, impact lookup, dry-run rebuilding, batch upload accounting and
full resync, together with proofs settling the frozen claims about them.

JSON values are modelled by `JVal`; Python dictionaries with the fixed key
sets used by the code become structures with `Option` fields (a key that
is absent maps to `none`).  Python floats arising from decimal parsing are
modelled exactly as `num / 10 ^ exp` (`DecNum`), and Python `==` on
heterogeneous values (where `3 == 3.0` and `True == 1`) is modelled by
`pyValEq`.
-/

namespace EventsValidator

/-- The exact value of a Python float produced by parsing a decimal
string: the number `num / 10 ^ exp`. -/
structure DecNum where
  num : Int
  exp : Nat
deriving DecidableEq

/-- Numeric equality of two decimal numbers, by cross multiplication. -/
def decNumEq (a b : DecNum) : Bool :=
  a.num * (10 : Int) ^ b.exp == b.num * (10 : Int) ^ a.exp

/-- A JSON-ish Python value as it appears in repository/schema data. -/
inductive JVal where
  | s (v : String)
  | i (v : Int)
  | f (v : DecNum)
  | b (v : Bool)
  | l (vs : List JVal)

/-- Python truthiness of a value (used for `if np.get("regex"):`). -/
def JVal.truthy : JVal → Bool
  | .s v => v ≠ ""
  | .i v => v ≠ 0
  | .f v => v.num ≠ 0
  | .b v => v
  | .l vs => !vs.isEmpty

/-- The numeric content of a value, when Python treats it as a number
(`bool` is a subtype of `int` in Python, so `True` counts as `1`). -/
def JVal.toNum? : JVal → Option DecNum
  | .i v => some ⟨v, 0⟩
  | .f v => some v
  | .b v => some ⟨if v then 1 else 0, 0⟩
  | _ => none

mutual
/-- Python `==` on values: numeric cross-type equality, string equality,
element-wise list equality; everything else is unequal. -/
def pyValEq : JVal → JVal → Bool
  | JVal.s a, JVal.s b => a == b
  | JVal.l a, JVal.l b => pyListValEq a b
  | v, w =>
    match JVal.toNum? v, JVal.toNum? w with
    | some x, some y => decNumEq x y
    | _, _ => false
/-- Python `==` on lists of values, element-wise. -/
def pyListValEq : List JVal → List JVal → Bool
  | [], [] => true
  | x :: xs, y :: ys => pyValEq x y && pyListValEq xs ys
  | _, _ => false
end

/-- Python `==` lifted to possibly-missing values (`None` equals only
`None`; a missing key behaves as `None` through `.get`). -/
def pyOptEq : Option JVal → Option JVal → Bool
  | none, none => true
  | some x, some y => pyValEq x y
  | _, _ => false

/-- Python `s.strip()` on the character list of a string. -/
def stripChars (cs : List Char) : List Char :=
  ((cs.dropWhile Char.isWhitespace).reverse.dropWhile Char.isWhitespace).reverse

/-- Digit run to a natural number. -/
def digitsToNat (cs : List Char) : Nat :=
  cs.foldl (fun a c => a * 10 + (c.toNat - 48)) 0

/-- Python `int(s)` on a string: optional sign, non-empty digit run,
surrounding whitespace allowed; `none` models a raised `ValueError`. -/
def parseIntStr (s : String) : Option Int :=
  let cs := stripChars s.toList
  let signed : Bool × List Char :=
    match cs with
    | '-' :: rest => (true, rest)
    | '+' :: rest => (false, rest)
    | _ => (false, cs)
  if !signed.2.isEmpty && signed.2.all Char.isDigit then
    some (if signed.1 then -(digitsToNat signed.2 : Int) else (digitsToNat signed.2 : Int))
  else none

/-- Python `float(s)` on a string (decimal forms: optional sign, digits
with an optional point; exponents and inf/nan are outside the profile the
code exercises); `none` models a raised `ValueError`. -/
def parseFloatStr (s : String) : Option DecNum :=
  let cs := stripChars s.toList
  let signed : Bool × List Char :=
    match cs with
    | '-' :: rest => (true, rest)
    | '+' :: rest => (false, rest)
    | _ => (false, cs)
  let intPart := signed.2.takeWhile Char.isDigit
  let rest := signed.2.dropWhile Char.isDigit
  let mag : Option DecNum :=
    match rest with
    | [] => if intPart.isEmpty then none else some ⟨(digitsToNat intPart : Int), 0⟩
    | '.' :: frac =>
      if frac.all Char.isDigit && !(intPart.isEmpty && frac.isEmpty) then
        some ⟨(digitsToNat intPart * 10 ^ frac.length + digitsToNat frac : Int), frac.length⟩
      else none
    | _ => none
  mag.map fun d => if signed.1 then ⟨-d.num, d.exp⟩ else d

/-- Python `float(x)` on an arbitrary value; `none` models a raised
`TypeError`/`ValueError`. -/
def pyFloat : JVal → Option DecNum
  | .s v => parseFloatStr v
  | .i v => some ⟨v, 0⟩
  | .f v => some v
  | .b v => some ⟨if v then 1 else 0, 0⟩
  | .l _ => none

/-- A nested entry, both as stored in the repository's `nestedSchema` and
as embedded in a document's array field. -/
structure NProps where
  type : Option JVal := none
  description : Option JVal := none
  value : Option JVal := none
  regex : Option JVal := none

/-- A repository parameter (`repo_data[name]`). -/
structure ParamData where
  type : Option JVal := none
  description : Option JVal := none
  value : Option JVal := none
  regex : Option JVal := none
  category : Option JVal := none
  nestedSchema : Option (List (String × NProps)) := none
  usedInSchemas : Option (List String) := none

/-- A document field definition (`schema_data[name]`). -/
structure FieldDef where
  type : Option JVal := none
  description : Option JVal := none
  value : Option JVal := none
  regex : Option JVal := none
  nestedSchema : Option (List (String × NProps)) := none

/-- A schema document: field name to field definition (insertion order
of the underlying Python dict is kept). -/
abbrev Doc := List (String × FieldDef)

/-- The parameter repository: parameter name to parameter data. -/
abbrev Repo := List (String × ParamData)

/-- Python `d.get(k)` / `k in d` on a dict modelled as an ordered
association list. -/
def lookup {α : Type} (d : List (String × α)) (k : String) : Option α :=
  (d.find? fun kv => kv.1 == k).map Prod.snd

/-- Python `x.get("type") == name` (string comparison; non-strings never
equal a string). -/
def typeIs (t : Option JVal) (name : String) : Bool :=
  match t with
  | some (JVal.s v) => v == name
  | _ => false

/-- The validated-value logic of `construct_schema_definition`
(lines 19–42, and its verbatim nested copy, lines 55–78): sentinel
filtering of `None`/blank/`"Any"`, then type-directed casting of strings
with a lenient fallback to the raw string on parse failure. -/
def computeFinalValue (ty : Option JVal) (raw : Option JVal) : Option JVal :=
  match raw with
  | none => none
  | some (JVal.s v) =>
    if (stripChars v.toList).isEmpty || v == "Any" then none
    else if typeIs ty "number" then
      if v.toList.any (· == '.') then
        match parseFloatStr v with
        | some q => some (JVal.f q)
        | none => some (JVal.s v)
      else
        match parseIntStr v with
        | some n => some (JVal.i n)
        | none => some (JVal.s v)
    else if typeIs ty "boolean" then
      if v.toList.map Char.toLower == "true".toList then some (JVal.b true)
      else if v.toList.map Char.toLower == "false".toList then some (JVal.b false)
      else none
    else some (JVal.s v)
  | some v => some v

/-- The nested-entry construction inside `construct_schema_definition`
(lines 48–80): always `type` and `description`, `regex` when truthy, and
a filtered `value`. -/
def constructNested (np : NProps) : NProps :=
  { type := some (np.type.getD (JVal.s ""))
    description := some (np.description.getD (JVal.s ""))
    regex :=
      match np.regex with
      | some r => if r.truthy then some r else none
      | none => none
    value := computeFinalValue np.type np.value }

/-- `construct_schema_definition(param_data)` (updater.py lines 6–84).
Note that the top level never receives a `regex` key. -/
def construct_schema_definition (p : ParamData) : FieldDef :=
  { type := some (p.type.getD (JVal.s ""))
    description := some (p.description.getD (JVal.s ""))
    value := computeFinalValue p.type p.value
    regex := none
    nestedSchema :=
      if typeIs p.type "array" then
        match p.nestedSchema with
        | some ns => some (ns.map fun kv => (kv.1, constructNested kv.2))
        | none => none
      else none }

/-- `find_impacted_schemas(param_name, repo_data)` (updater.py
lines 86–94). -/
def find_impacted_schemas (param_name : String) (repo_data : Repo) : List String :=
  match lookup repo_data param_name with
  | none => []
  | some p => p.usedInSchemas.getD []

/-- Replacement of the definition stored under an existing key
(Python `d[k] = v` keeps the key's position in the dict). -/
def setKey (d : Doc) (k : String) (v : FieldDef) : Doc :=
  d.map fun kv => if kv.1 == k then (k, v) else kv

/-- The pure core of `rebuild_schema_dry_run(schema_name, param_name,
new_param_data)` (updater.py lines 96–141): the fetched document is a
parameter (fetch failure is modelled by the empty document, which the
code maps to `({}, {})` as well); the parameter's definition, when
present, is cleanly replaced by the constructed one. -/
def rebuild_schema_dry_run (original : Doc) (param_name : String)
    (new_param_data : ParamData) : Doc × Doc :=
  if original.isEmpty then ([], [])
  else
    let new_props := construct_schema_definition new_param_data
    if (lookup original param_name).isSome then
      (original, setKey original param_name new_props)
    else
      (original, original)

/-- The per-document upload outcome: `none` is a successful
`uploadJson`, `some e` an exception with message `e`. -/
abbrev UploadOutcome := String → Doc → Option String

/-- `apply_updates(schema_map)` (updater.py lines 143–157), with the
storage backend abstracted into the per-document outcome `upload`. -/
def apply_updates (schema_map : List (String × Doc)) (upload : UploadOutcome) :
    Nat × List String :=
  schema_map.foldl
    (fun acc kv =>
      match upload kv.1 kv.2 with
      | none => (acc.1 + 1, acc.2)
      | some e => (acc.1, acc.2 ++ [kv.1 ++ ": " ++ e]))
    (0, [])

/-- The reserved document fields skipped by health check and resync. -/
def reservedName (k : String) : Bool :=
  k == "event_name" || k == "version"

/-- Sentinel normalization used in the comparisons of
`check_schema_health`: `"Any"`, `""` and `None` compare as `None`. -/
def normSentinel : Option JVal → Option JVal
  | some (JVal.s "Any") => none
  | some (JVal.s "") => none
  | v => v

/-- The sequential `float()` normalization under a single `try` block
(updater.py lines 237–241 and 266–270): the first failure aborts the
rest, leaving later values unnormalized. -/
def numNorm2 (c e : Option JVal) : Option JVal × Option JVal :=
  match c with
  | none =>
    match e with
    | none => (none, none)
    | some ve =>
      match pyFloat ve with
      | some q => (none, some (JVal.f q))
      | none => (none, some ve)
  | some vc =>
    match pyFloat vc with
    | none => (some vc, e)
    | some qc =>
      match e with
      | none => (some (JVal.f qc), none)
      | some ve =>
        match pyFloat ve with
        | some qe => (some (JVal.f qc), some (JVal.f qe))
        | none => (some (JVal.f qc), some ve)

/-- `np.get(key)` over the four compared nested keys. -/
def nvGet (np : NProps) : String → Option JVal
  | "type" => np.type
  | "value" => np.value
  | "regex" => np.regex
  | "description" => np.description
  | _ => none

/-- One key of the nested comparison (updater.py lines 228–250):
sentinel normalization, number normalization keyed on the DOCUMENT
side's `type`, inequality, then ghost-key detection (a key present on
the document side but absent from the canonical side). -/
def nestedKeyMismatch (cv ev : NProps) (key : String) : Bool :=
  let val_c := nvGet cv key
  let val_e := nvGet ev key
  let n0_c := normSentinel val_c
  let n0_e := normSentinel val_e
  let normd :=
    if key == "value" && typeIs cv.type "number" then numNorm2 n0_c n0_e
    else (n0_c, n0_e)
  !(pyOptEq normd.1 normd.2) || (val_c.isSome && val_e.isNone)

/-- All four keys of one nested entry (the `for key in (...)` loop). -/
def nestedEntryMismatch (cv ev : NProps) : Bool :=
  ["type", "value", "regex", "description"].any (nestedKeyMismatch cv ev)

/-- The deep nested-schema comparison of `check_schema_health`
(updater.py lines 216–251). -/
def nestedMismatch (current expected : List (String × NProps)) : Bool :=
  if current.length ≠ expected.length then true
  else
    expected.any fun nkv =>
      match lookup current nkv.1 with
      | none => true
      | some cv => nestedEntryMismatch cv nkv.2

/-- The final value comparison of `check_schema_health` (updater.py
lines 257–274). -/
def valueMismatch (sp ep : FieldDef) : Bool :=
  let s0 := normSentinel sp.value
  let e0 := normSentinel ep.value
  let normd := if typeIs sp.type "number" then numNorm2 s0 e0 else (s0, e0)
  !(pyOptEq normd.1 normd.2)

/-- The per-parameter body of `check_schema_health` (updater.py
lines 195–274): each failed comparison appends the name and moves to the
next parameter, so membership is the disjunction of the checks. -/
def paramOutdated (sp ep : FieldDef) : Bool :=
  !(pyOptEq sp.type ep.type) ||
  !(pyValEq (sp.description.getD (JVal.s "")) (ep.description.getD (JVal.s ""))) ||
  (match ep.regex with
   | some r => !(pyOptEq sp.regex (some r))
   | none => false) ||
  (match ep.nestedSchema with
   | some ens => typeIs ep.type "array" && nestedMismatch (sp.nestedSchema.getD []) ens
   | none => false) ||
  valueMismatch sp ep

/-- Whether one document entry gets reported by `check_schema_health`:
reserved fields and fields absent from the repository are skipped, the
rest are compared against their constructed canonical definition. -/
def healthPred (repo_data : Repo) (kv : String × FieldDef) : Bool :=
  if reservedName kv.1 then false
  else
    match lookup repo_data kv.1 with
    | none => false
    | some rp => paramOutdated kv.2 (construct_schema_definition rp)

/-- `check_schema_health(schema_data, repo_data)` (updater.py
lines 176–276): the flat list, in document order, of the non-reserved
parameter names that are present in the repository and fail any of the
comparisons against the constructed canonical definition. -/
def check_schema_health (schema_data : Doc) (repo_data : Repo) : List String :=
  (schema_data.filter (healthPred repo_data)).map Prod.fst

/-- The per-field action of the resync loop in `update_schema_full`
(updater.py lines 292–304): reserved fields and fields absent from the
repository are left alone; the rest are cleanly replaced. -/
def resyncField (repo_data : Repo) (kv : String × FieldDef) : String × FieldDef :=
  if reservedName kv.1 then kv
  else
    match lookup repo_data kv.1 with
    | none => kv
    | some rp => (kv.1, construct_schema_definition rp)

/-- The pure core of `update_schema_full(schema_name, repo_data)`
(updater.py lines 278–313): every non-reserved field present in the
repository is replaced by its constructed definition, and `updates_made`
(the reported "changed" flag) is set as soon as any such field is
touched — whether or not its definition actually differs. -/
def update_schema_full (current_schema : Doc) (repo_data : Repo) : Doc × Bool :=
  (current_schema.map (resyncField repo_data),
   current_schema.any fun kv =>
     !reservedName kv.1 && (lookup repo_data kv.1).isSome)

/-- Python `==` on two nested entries (dicts over the four keys). -/
def pyNPropsEq (a b : NProps) : Bool :=
  pyOptEq a.type b.type && pyOptEq a.description b.description &&
  pyOptEq a.value b.value && pyOptEq a.regex b.regex

/-- Python `==` on two `nestedSchema` dicts: same size, same key set,
per-key equal entries (order-insensitive, as for Python dicts). -/
def pyNestedEq (a b : List (String × NProps)) : Bool :=
  a.length == b.length &&
  (a.all fun kv => (lookup b kv.1).isSome) &&
  (b.all fun kv =>
    match lookup a kv.1 with
    | some av => pyNPropsEq av kv.2
    | none => false)

/-- Python `==` on two field-definition dicts. -/
def pyFieldDefEq (a b : FieldDef) : Bool :=
  pyOptEq a.type b.type && pyOptEq a.description b.description &&
  pyOptEq a.value b.value && pyOptEq a.regex b.regex &&
  (match a.nestedSchema, b.nestedSchema with
   | none, none => true
   | some x, some y => pyNestedEq x y
   | _, _ => false)

/-! ### Association-list lemmas -/

theorem lookup_eq_some_mem {α : Type} {d : List (String × α)} {k : String} {v : α}
    (h : lookup d k = some v) : (k, v) ∈ d := by
  induction d with
  | nil => simp [lookup] at h
  | cons a t ih =>
    by_cases hk : a.1 = k
    · simp only [lookup, List.find?, hk, beq_self_eq_true, Option.map_some] at h
      rcases a with ⟨a1, a2⟩
      cases h
      cases hk
      exact List.mem_cons_self _ _
    · simp only [lookup, List.find?, beq_eq_false_iff_ne.mpr hk] at h
      exact List.mem_cons_of_mem _ (ih h)

theorem lookup_map_value {α β : Type} (d : List (String × α)) (g : α → β) (k : String) :
    lookup (d.map fun kv => (kv.1, g kv.2)) k = (lookup d k).map g := by
  induction d with
  | nil => simp [lookup]
  | cons a t ih =>
    by_cases hk : a.1 = k
    · simp [lookup, List.find?, hk]
    · simpa [lookup, List.find?, beq_eq_false_iff_ne.mpr hk] using ih

theorem setKey_cons (a : String × FieldDef) (t : Doc) (k : String) (v : FieldDef) :
    setKey (a :: t) k v = (if a.1 == k then (k, v) else a) :: setKey t k v := rfl

theorem lookup_cons (a : String × FieldDef) (t : Doc) (q : String) :
    lookup (a :: t) q = if a.1 == q then some a.2 else lookup t q := by
  cases ha : a.1 == q <;> simp [lookup, List.find?, ha]

theorem lookup_setKey_self {d : Doc} {k : String} (v : FieldDef)
    (h : (lookup d k).isSome = true) :
    lookup (setKey d k v) k = some v := by
  induction d with
  | nil => simp [lookup] at h
  | cons a t ih =>
    rw [setKey_cons]
    cases ha : a.1 == k
    · rw [lookup_cons] at h
      rw [ha] at h
      simp only [if_neg Bool.false_ne_true] at h
      rw [if_neg (by simp [ha]), lookup_cons, ha]
      simpa using ih h
    · rw [if_pos (by simp [ha]), lookup_cons]
      simp

theorem lookup_setKey_ne {d : Doc} {k q : String} (v : FieldDef) (hq : q ≠ k) :
    lookup (setKey d k v) q = lookup d q := by
  induction d with
  | nil => simp [lookup, setKey]
  | cons a t ih =>
    rw [setKey_cons]
    cases ha : a.1 == k
    · rw [if_neg (by simp [ha]), lookup_cons, lookup_cons]
      cases haq : a.1 == q
      · simp [haq, ih]
      · simp [haq]
    · rw [if_pos (by simp [ha]), lookup_cons, lookup_cons]
      have hak : a.1 = k := by simpa using ha
      have h1 : (k == q) = false := by
        simp only [beq_eq_false_iff_ne, ne_eq]
        exact fun he => hq he.symm
      have h2 : (a.1 == q) = false := by rw [hak]; exact h1
      simp [h1, h2, ih]

/-! ### C7: impact completeness -/

/-- C7 (confirmed): `find_impacted_schemas(p, R)` returns exactly
`R[p].usedInSchemas` — the very list, hence in particular an
order-independent set equality — defaulting to the empty list when the
attribute is missing, and returns `[]` for any `p` not present in `R`. -/
theorem c7_find_impacted_exact (p : String) (R : Repo) :
    (∀ pd, lookup R p = some pd →
      find_impacted_schemas p R = pd.usedInSchemas.getD []) ∧
    (lookup R p = none → find_impacted_schemas p R = []) := by
  constructor
  · intro pd h
    simp [find_impacted_schemas, h]
  · intro h
    simp [find_impacted_schemas, h]

/-- Witness for C7, on the repository of the project's own unit test:
a parameter with `usedInSchemas`, one without the attribute, and a
missing parameter. -/
theorem c7_find_impacted_exact_witness :
    find_impacted_schemas "param1"
      [("param1", { usedInSchemas := some ["s1.json", "s2.json"] }), ("param2", {})]
      = ["s1.json", "s2.json"] ∧
    find_impacted_schemas "param2"
      [("param1", { usedInSchemas := some ["s1.json", "s2.json"] }), ("param2", {})]
      = [] ∧
    find_impacted_schemas "missing"
      [("param1", { usedInSchemas := some ["s1.json", "s2.json"] }), ("param2", {})]
      = [] :=
  ⟨(c7_find_impacted_exact "param1" _).1
      { usedInSchemas := some ["s1.json", "s2.json"] } rfl,
   (c7_find_impacted_exact "param2" _).1 {} rfl,
   (c7_find_impacted_exact "missing" _).2 rfl⟩

/-! ### C8: targeted patch frame property -/

/-- C8 (confirmed): on a fetched document containing the parameter,
`rebuild_schema_dry_run` returns the original unmodified, replaces
exactly the named parameter's definition with the constructed draft, and
leaves the definition of every other field — reserved fields included —
unchanged in the proposal. -/
theorem c8_rebuild_dry_run_frame (original : Doc) (param : String)
    (draft : ParamData) (sp : FieldDef) (h : lookup original param = some sp) :
    (rebuild_schema_dry_run original param draft).1 = original ∧
    lookup (rebuild_schema_dry_run original param draft).2 param
      = some (construct_schema_definition draft) ∧
    ∀ q, q ≠ param →
      lookup (rebuild_schema_dry_run original param draft).2 q = lookup original q := by
  have hne : original.isEmpty = false := by
    cases original with
    | nil => simp [lookup] at h
    | cons a t => rfl
  have hsome : (lookup original param).isSome = true := by rw [h]; rfl
  refine ⟨?_, ?_, ?_⟩
  · simp [rebuild_schema_dry_run, hne, hsome]
  · simp only [rebuild_schema_dry_run, hne, Bool.false_eq_true, if_false, hsome, if_true]
    exact lookup_setKey_self _ hsome
  · intro q hq
    simp only [rebuild_schema_dry_run, hne, Bool.false_eq_true, if_false, hsome, if_true]
    exact lookup_setKey_ne _ hq

/-- Witness for C8: a three-field document (the two reserved fields plus
one parameter) in which exactly the parameter's definition is replaced. -/
theorem c8_rebuild_dry_run_frame_witness :
    (rebuild_schema_dry_run
        [("event_name", { type := some (JVal.s "string") }),
         ("version", { type := some (JVal.s "number") }),
         ("my_param", { type := some (JVal.s "string"), value := some (JVal.s "initial") })]
        "my_param" { type := some (JVal.s "string"), description := some (JVal.s "new desc") }).1
      = [("event_name", { type := some (JVal.s "string") }),
         ("version", { type := some (JVal.s "number") }),
         ("my_param", { type := some (JVal.s "string"), value := some (JVal.s "initial") })] ∧
    lookup (rebuild_schema_dry_run
        [("event_name", { type := some (JVal.s "string") }),
         ("version", { type := some (JVal.s "number") }),
         ("my_param", { type := some (JVal.s "string"), value := some (JVal.s "initial") })]
        "my_param" { type := some (JVal.s "string"), description := some (JVal.s "new desc") }).2
        "my_param"
      = some (construct_schema_definition
          { type := some (JVal.s "string"), description := some (JVal.s "new desc") }) ∧
    lookup (rebuild_schema_dry_run
        [("event_name", { type := some (JVal.s "string") }),
         ("version", { type := some (JVal.s "number") }),
         ("my_param", { type := some (JVal.s "string"), value := some (JVal.s "initial") })]
        "my_param" { type := some (JVal.s "string"), description := some (JVal.s "new desc") }).2
        "event_name"
      = some { type := some (JVal.s "string") } := by
  obtain ⟨h1, h2, h3⟩ := c8_rebuild_dry_run_frame
    [("event_name", { type := some (JVal.s "string") }),
     ("version", { type := some (JVal.s "number") }),
     ("my_param", { type := some (JVal.s "string"), value := some (JVal.s "initial") })]
    "my_param" { type := some (JVal.s "string"), description := some (JVal.s "new desc") }
    { type := some (JVal.s "string"), value := some (JVal.s "initial") } rfl
  exact ⟨h1, h2, (h3 "event_name" (by decide)).trans rfl⟩

/-! ### C9: partial-batch failure semantics -/

theorem apply_updates_go (upload : UploadOutcome) :
    ∀ (m : List (String × Doc)) (c : Nat) (es : List String),
      m.foldl
        (fun acc kv =>
          match upload kv.1 kv.2 with
          | none => (acc.1 + 1, acc.2)
          | some e => (acc.1, acc.2 ++ [kv.1 ++ ": " ++ e])) (c, es)
      = (c + (m.filter fun kv => (upload kv.1 kv.2).isNone).length,
         es ++ m.filterMap fun kv => (upload kv.1 kv.2).map fun e => kv.1 ++ ": " ++ e)
  | [], c, es => by simp
  | kv :: t, c, es => by
    cases hu : upload kv.1 kv.2 with
    | none =>
      rw [List.foldl_cons]
      simp only [hu]
      rw [apply_updates_go upload t (c + 1) es]
      simp only [List.filter_cons, List.filterMap_cons, hu, Option.isNone_none, if_true,
        List.length_cons, Prod.mk.injEq, Option.map_none']
      exact ⟨by omega, trivial⟩
    | some e =>
      rw [List.foldl_cons]
      simp only [hu]
      rw [apply_updates_go upload t c (es ++ [kv.1 ++ ": " ++ e])]
      simp only [List.filter_cons, List.filterMap_cons, hu, Option.isNone_some,
        Bool.false_eq_true, if_false, Prod.mk.injEq, Option.map_some', List.append_assoc,
        List.singleton_append]

theorem filter_isNone_filterMap_length (upload : UploadOutcome) :
    ∀ m : List (String × Doc),
      (m.filter fun kv => (upload kv.1 kv.2).isNone).length +
        (m.filterMap fun kv => (upload kv.1 kv.2).map fun e => kv.1 ++ ": " ++ e).length
      = m.length
  | [] => rfl
  | kv :: t => by
    have ih := filter_isNone_filterMap_length upload t
    cases hu : upload kv.1 kv.2 <;>
      simp only [List.filter_cons, List.filterMap_cons, hu, Option.isNone_none, Option.isNone_some,
        Option.map_none', Option.map_some', if_true, if_false, Bool.false_eq_true,
        List.length_cons] <;>
      omega

/-- C9 (confirmed): `apply_updates` attempts every document in the
batch — each submitted document lands either in the success count or in
the error list, a failure never aborts the rest and never escapes as an
exception (the embedding is a total function of the per-document
outcomes) — and success count plus number of errors equals the number of
documents submitted. -/
theorem c9_apply_updates_partial_batch (m : List (String × Doc)) (upload : UploadOutcome) :
    (apply_updates m upload).1 = (m.filter fun kv => (upload kv.1 kv.2).isNone).length ∧
    (apply_updates m upload).2
      = (m.filterMap fun kv => (upload kv.1 kv.2).map fun e => kv.1 ++ ": " ++ e) ∧
    (apply_updates m upload).1 + (apply_updates m upload).2.length = m.length := by
  have h := apply_updates_go upload m 0 []
  unfold apply_updates
  rw [h]
  refine ⟨by simp, by simp, ?_⟩
  simpa using filter_isNone_filterMap_length upload m

/-! ### C2: idempotence of resync -/

theorem resyncField_fst (R : Repo) (kv : String × FieldDef) :
    (resyncField R kv).1 = kv.1 := by
  unfold resyncField
  by_cases hr : reservedName kv.1 = true
  · simp [hr]
  · simp only [hr, Bool.false_eq_true, if_false]
    cases lookup R kv.1 <;> rfl

theorem resyncField_idem (R : Repo) (kv : String × FieldDef) :
    resyncField R (resyncField R kv) = resyncField R kv := by
  by_cases hr : reservedName kv.1 = true
  · simp [resyncField, hr]
  · simp only [resyncField, hr, Bool.false_eq_true, if_false]
    cases hl : lookup R kv.1 with
    | none => simp [resyncField, hr, hl]
    | some rp => simp [resyncField, hr, hl]

/-- C2 (corrected): a second full resync is idempotent on document
CONTENT — it rewrites the document to the same thing and reports the
same flag as the first — but the claim's `changed == false` fails: the
reported flag is true exactly when the document has at least one
non-reserved field present in the repository, with no regard to whether
any definition actually changed. -/
theorem c2_resync_idempotent_content (D : Doc) (R : Repo) :
    (update_schema_full (update_schema_full D R).1 R).1 = (update_schema_full D R).1 ∧
    (update_schema_full (update_schema_full D R).1 R).2 = (update_schema_full D R).2 ∧
    ((update_schema_full D R).2 = true ↔
      ∃ kv ∈ D, reservedName kv.1 = false ∧ (lookup R kv.1).isSome = true) := by
  refine ⟨?_, ?_, ?_⟩
  · show (D.map (resyncField R)).map (resyncField R) = D.map (resyncField R)
    rw [List.map_map]
    exact List.map_congr_left fun kv _ => resyncField_idem R kv
  · show (D.map (resyncField R)).any _ = D.any _
    rw [List.any_map]
    induction D with
    | nil => rfl
    | cons kv t ih =>
      simp only [List.any_cons, ih, Function.comp_apply, resyncField_fst]
  · show (D.any fun kv => !reservedName kv.1 && (lookup R kv.1).isSome) = true ↔ _
    rw [List.any_eq_true]
    constructor
    · rintro ⟨kv, hm, hb⟩
      rw [Bool.and_eq_true, Bool.not_eq_true'] at hb
      exact ⟨kv, hm, hb.1, hb.2⟩
    · rintro ⟨kv, hm, h1, h2⟩
      exact ⟨kv, hm, by rw [Bool.and_eq_true, Bool.not_eq_true']; exact ⟨h1, h2⟩⟩

/-- C2 counterexample: a document already in canonical form (hence a
fixed point of the resync) still reports `changed == true` on the second
— indeed on every — resync, because it shares the field `"p"` with the
repository; the claim requires `false` here. -/
theorem c2_second_resync_reports_change :
    (update_schema_full
      (update_schema_full
        [("p", { type := some (JVal.s "string"), description := some (JVal.s "") })]
        [("p", { type := some (JVal.s "string"), description := some (JVal.s "") })]).1
      [("p", { type := some (JVal.s "string"), description := some (JVal.s "") })]).2
    = true := by decide

/-! ### C3: the health report's shape -/

/-- C3 (code bug): `check_schema_health` does not produce the
critical/minor two-set report the spec and the callers require — it
returns one flat list in which a type mismatch (`"a"`, a critical drift)
and a description drift (`"b"`, a minor drift) are indistinguishable.
`explorer.py` consumes the result as a dict via `health.get("critical")`
/ `health.get("minor")`, which raises `AttributeError` on this list. -/
theorem c3_flat_list_eval :
    check_schema_health
      [("event_name", { type := some (JVal.s "string") }),
       ("a", { type := some (JVal.s "number") }),
       ("b", { type := some (JVal.s "string"), description := some (JVal.s "x") })]
      [("a", { type := some (JVal.s "string") }),
       ("b", { type := some (JVal.s "string"), description := some (JVal.s "y") })]
    = ["a", "b"] := by decide

/-! ### C4: top-level regex emission -/

/-- C4 (code bug): for EVERY repository parameter — in particular one
whose value is absent and whose regex is present and non-empty —
`construct_schema_definition` emits no top-level `regex` key at all: the
constructed props dict is built from `type`/`description`, optionally
`value`, and (for arrays) `nestedSchema` only.  The spec, the project's
own test `test_rebuild_schema_dry_run_simple` (which asserts
`new["my_param"]["regex"] == "new regex"`), and the otherwise-dead
top-level regex comparison in `check_schema_health` (lines 206–209) all
require the regex to be carried. -/
theorem c4_no_top_level_regex (p : ParamData) :
    (construct_schema_definition p).regex = none := rfl

/-! ### C5: array construction -/

/-- C5 (corrected): for an array-typed parameter with a `nestedSchema`,
`construct_schema_definition` emits the recursively constructed
`nestedSchema` and never a top-level `regex`; but the top-level `value`
is omitted only when the raw value normalizes to Absent
(`None`/`"Any"`/blank string) — NOT "for every raw value the array
parameter may carry", as the counterexample shows. -/
theorem c5_array_construct (p : ParamData) (ns : List (String × NProps))
    (ht : p.type = some (JVal.s "array")) (hn : p.nestedSchema = some ns) :
    (construct_schema_definition p).nestedSchema
      = some (ns.map fun kv => (kv.1, constructNested kv.2)) ∧
    (construct_schema_definition p).regex = none ∧
    ((p.value = none ∨ p.value = some (JVal.s "Any") ∨
      (∃ s, p.value = some (JVal.s s) ∧ (stripChars s.toList).isEmpty = true)) →
      (construct_schema_definition p).value = none) := by
  refine ⟨?_, rfl, ?_⟩
  · simp [construct_schema_definition, typeIs, ht, hn]
  · rintro (hv | hv | ⟨s, hv, hs⟩)
    · simp [construct_schema_definition, computeFinalValue, hv]
    · simp [construct_schema_definition, computeFinalValue, hv]
    · have hs' : stripChars s.toList = [] := List.isEmpty_iff.mp hs
      simp only [String.toList] at hs'
      simp [construct_schema_definition, computeFinalValue, hv, hs']

/-- Witness for C5: a concrete array parameter with a nested number
entry and a blank raw value. -/
theorem c5_array_construct_witness :
    (construct_schema_definition
        { type := some (JVal.s "array"), value := some (JVal.s ""),
          nestedSchema := some [("qty", { type := some (JVal.s "number") })] }).nestedSchema
      = some [("qty", constructNested { type := some (JVal.s "number") })] ∧
    (construct_schema_definition
        { type := some (JVal.s "array"), value := some (JVal.s ""),
          nestedSchema := some [("qty", { type := some (JVal.s "number") })] }).regex = none ∧
    (construct_schema_definition
        { type := some (JVal.s "array"), value := some (JVal.s ""),
          nestedSchema := some [("qty", { type := some (JVal.s "number") })] }).value = none := by
  obtain ⟨h1, h2, h3⟩ := c5_array_construct
    { type := some (JVal.s "array"), value := some (JVal.s ""),
      nestedSchema := some [("qty", { type := some (JVal.s "number") })] }
    [("qty", { type := some (JVal.s "number") })] rfl rfl
  exact ⟨h1, h2, h3 (Or.inr (Or.inr ⟨"", rfl, rfl⟩))⟩

/-- C5 counterexample: an array parameter carrying the raw value `"x"`
(not an Absent sentinel) DOES get a top-level `value` key in its
constructed definition, so the "omits the top-level value … for every
raw value" part of the claim is false. -/
theorem c5_array_value_emitted_cex :
    (construct_schema_definition
        { type := some (JVal.s "array"), value := some (JVal.s "x"),
          nestedSchema := some [] }).value = some (JVal.s "x") := rfl

/-! ### C6: Absent sentinels -/

/-- C6 (corrected): `None`, the empty string and `"Any"` are Absent
sentinels for every declared type — `construct_schema_definition` never
emits a `value` key for them — but the empty LIST is not: contrary to
the claim, it is stored as a value (see the counterexample). -/
theorem c6_absent_sentinels (p : ParamData)
    (h : p.value = none ∨ p.value = some (JVal.s "") ∨ p.value = some (JVal.s "Any")) :
    (construct_schema_definition p).value = none := by
  rcases h with hv | hv | hv <;>
    simp [construct_schema_definition, computeFinalValue, hv, stripChars]

/-- Witness for C6: all three sentinels on three different declared
types. -/
theorem c6_absent_sentinels_witness :
    (construct_schema_definition { type := some (JVal.s "number") }).value = none ∧
    (construct_schema_definition
      { type := some (JVal.s "string"), value := some (JVal.s "") }).value = none ∧
    (construct_schema_definition
      { type := some (JVal.s "boolean"), value := some (JVal.s "Any") }).value = none :=
  ⟨c6_absent_sentinels { type := some (JVal.s "number") } (Or.inl rfl),
   c6_absent_sentinels { type := some (JVal.s "string"), value := some (JVal.s "") }
     (Or.inr (Or.inl rfl)),
   c6_absent_sentinels { type := some (JVal.s "boolean"), value := some (JVal.s "Any") }
     (Or.inr (Or.inr rfl))⟩

/-- C6 counterexample: the empty list raw value is NOT normalized to
Absent — `construct_schema_definition` emits `value: []`, so the
empty-list part of the sentinel claim is false. -/
theorem c6_empty_list_not_sentinel_cex :
    (construct_schema_definition
        { type := some (JVal.s "string"), value := some (JVal.l []) }).value
      = some (JVal.l []) := rfl

/-! ### Preservation of Python equality under the comparison
normalizations (towards C1) -/

theorem decNumEq_refl (q : DecNum) : decNumEq q q = true := by
  simp [decNumEq]

theorem pyValEq_string_left {a : String} {w : JVal}
    (h : pyValEq (JVal.s a) w = true) : w = JVal.s a := by
  cases w <;> simp_all [pyValEq, JVal.toNum?]

theorem pyValEq_string_right {a : String} {v : JVal}
    (h : pyValEq v (JVal.s a) = true) : v = JVal.s a := by
  cases v <;> simp_all [pyValEq, JVal.toNum?]

theorem normSentinel_some_of_ne {x : JVal} (h1 : x ≠ JVal.s "Any") (h2 : x ≠ JVal.s "") :
    normSentinel (some x) = some x := by
  unfold normSentinel
  split
  · rename_i he
    exact absurd (Option.some.inj he) h1
  · rename_i he
    exact absurd (Option.some.inj he) h2
  · rfl

theorem pyOptEq_normSentinel {a b : Option JVal} (h : pyOptEq a b = true) :
    pyOptEq (normSentinel a) (normSentinel b) = true := by
  cases a with
  | none =>
    cases b with
    | none => exact h
    | some y => simp [pyOptEq] at h
  | some x =>
    cases b with
    | none => simp [pyOptEq] at h
    | some y =>
      have h' : pyValEq x y = true := h
      by_cases hx1 : x = JVal.s "Any"
      · subst hx1
        have hy := pyValEq_string_left h'
        subst hy
        rfl
      · by_cases hx2 : x = JVal.s ""
        · subst hx2
          have hy := pyValEq_string_left h'
          subst hy
          rfl
        · have hy1 : y ≠ JVal.s "Any" := fun he => hx1 (he ▸ pyValEq_string_right (he ▸ h'))
          have hy2 : y ≠ JVal.s "" := fun he => hx2 (he ▸ pyValEq_string_right (he ▸ h'))
          rw [normSentinel_some_of_ne hx1 hx2, normSentinel_some_of_ne hy1 hy2]
          exact h

theorem pyFloat_of_pyValEq {v w : JVal} (h : pyValEq v w = true) :
    (pyFloat v).isSome = (pyFloat w).isSome ∧
    ∀ q1 q2, pyFloat v = some q1 → pyFloat w = some q2 → decNumEq q1 q2 = true := by
  cases v with
  | s a =>
    have hw := pyValEq_string_left h
    subst hw
    exact ⟨rfl, fun q1 q2 h1 h2 => by rw [h1] at h2; cases h2; exact decNumEq_refl q1⟩
  | l vs =>
    cases w <;> simp_all [pyValEq, JVal.toNum?, pyFloat]
  | i n =>
    cases w <;> simp_all [pyValEq, JVal.toNum?, pyFloat]
  | f q =>
    cases w <;> simp_all [pyValEq, JVal.toNum?, pyFloat]
  | b bb =>
    cases w <;> simp_all [pyValEq, JVal.toNum?, pyFloat]

theorem pyOptEq_numNorm2 {c e : Option JVal} (h : pyOptEq c e = true) :
    pyOptEq (numNorm2 c e).1 (numNorm2 c e).2 = true := by
  cases c with
  | none =>
    cases e with
    | none => exact h
    | some ve => simp [pyOptEq] at h
  | some vc =>
    cases e with
    | none => simp [pyOptEq] at h
    | some ve =>
      have h' : pyValEq vc ve = true := h
      obtain ⟨hiff, hnum⟩ := pyFloat_of_pyValEq h'
      unfold numNorm2
      cases hfc : pyFloat vc with
      | none =>
        simp only [hfc]
        exact h
      | some qc =>
        cases hfe : pyFloat ve with
        | none =>
          rw [hfc, hfe] at hiff
          simp at hiff
        | some qe =>
          simp only [hfc, hfe]
          have : decNumEq qc qe = true := hnum qc qe hfc hfe
          simpa [pyOptEq, pyValEq, JVal.toNum?] using this

theorem pyValEq_getD_of_pyOptEq {a b : Option JVal} (h : pyOptEq a b = true) :
    pyValEq (a.getD (JVal.s "")) (b.getD (JVal.s "")) = true := by
  cases a with
  | none =>
    cases b with
    | none => rfl
    | some y => simp [pyOptEq] at h
  | some x =>
    cases b with
    | none => simp [pyOptEq] at h
    | some y => exact h

theorem nestedKeyMismatch_of_pyOptEq {cv ev : NProps} {key : String}
    (h : pyOptEq (nvGet cv key) (nvGet ev key) = true) :
    nestedKeyMismatch cv ev key = false := by
  unfold nestedKeyMismatch
  have hnorm : pyOptEq (normSentinel (nvGet cv key)) (normSentinel (nvGet ev key)) = true :=
    pyOptEq_normSentinel h
  have hpair :
      pyOptEq
        (if key == "value" && typeIs cv.type "number" then
          numNorm2 (normSentinel (nvGet cv key)) (normSentinel (nvGet ev key))
        else (normSentinel (nvGet cv key), normSentinel (nvGet ev key))).1
        (if key == "value" && typeIs cv.type "number" then
          numNorm2 (normSentinel (nvGet cv key)) (normSentinel (nvGet ev key))
        else (normSentinel (nvGet cv key), normSentinel (nvGet ev key))).2 = true := by
    by_cases hb : (key == "value" && typeIs cv.type "number") = true
    · rw [if_pos hb]
      exact pyOptEq_numNorm2 hnorm
    · rw [if_neg hb]
      exact hnorm
  have hghost : ((nvGet cv key).isSome && (nvGet ev key).isNone) = false := by
    cases hc : nvGet cv key with
    | none => rfl
    | some x =>
      cases he : nvGet ev key with
      | none => rw [hc, he] at h; simp [pyOptEq] at h
      | some y => simp
  simp only [hpair, hghost, Bool.not_true, Bool.or_false]

theorem nestedEntryMismatch_of_pyNPropsEq {cv ev : NProps}
    (h : pyNPropsEq cv ev = true) :
    nestedEntryMismatch cv ev = false := by
  unfold pyNPropsEq at h
  rw [Bool.and_eq_true, Bool.and_eq_true, Bool.and_eq_true] at h
  obtain ⟨⟨⟨ht, hd⟩, hv⟩, hr⟩ := h
  unfold nestedEntryMismatch
  rw [List.any_eq_false]
  intro key hkey
  rw [Bool.not_eq_true]
  simp only [List.mem_cons, List.not_mem_nil, or_false] at hkey
  rcases hkey with h1 | h1 | h1 | h1
  · subst h1
    apply nestedKeyMismatch_of_pyOptEq
    simpa [nvGet] using ht
  · subst h1
    apply nestedKeyMismatch_of_pyOptEq
    simpa [nvGet] using hv
  · subst h1
    apply nestedKeyMismatch_of_pyOptEq
    simpa [nvGet] using hr
  · subst h1
    apply nestedKeyMismatch_of_pyOptEq
    simpa [nvGet] using hd

theorem nestedMismatch_of_pyNestedEq {cs ens : List (String × NProps)}
    (h : pyNestedEq cs ens = true) :
    nestedMismatch cs ens = false := by
  unfold pyNestedEq at h
  rw [Bool.and_eq_true, Bool.and_eq_true] at h
  obtain ⟨⟨hlen, _⟩, hall⟩ := h
  have hlen' : cs.length = ens.length := by simpa using hlen
  unfold nestedMismatch
  rw [if_neg (by omega), List.any_eq_false]
  intro nkv hmem
  rw [List.all_eq_true] at hall
  have hthis := hall nkv hmem
  cases hl : lookup cs nkv.1 with
  | none => rw [hl] at hthis; simp at hthis
  | some av =>
    rw [hl] at hthis
    simp only [hl]
    simp [nestedEntryMismatch_of_pyNPropsEq hthis]

theorem valueMismatch_of_pyOptEq {sp ep : FieldDef}
    (h : pyOptEq sp.value ep.value = true) :
    valueMismatch sp ep = false := by
  have hnorm := pyOptEq_normSentinel h
  have hpair :
      pyOptEq
        (if typeIs sp.type "number" then
          numNorm2 (normSentinel sp.value) (normSentinel ep.value)
        else (normSentinel sp.value, normSentinel ep.value)).1
        (if typeIs sp.type "number" then
          numNorm2 (normSentinel sp.value) (normSentinel ep.value)
        else (normSentinel sp.value, normSentinel ep.value)).2 = true := by
    by_cases hb : typeIs sp.type "number" = true
    · rw [if_pos hb]
      exact pyOptEq_numNorm2 hnorm
    · rw [if_neg hb]
      exact hnorm
  unfold valueMismatch
  simp only [hpair, Bool.not_true]

/-- If the document's field definition equals (as a Python dict) the
constructed canonical one, no comparison of `check_schema_health`
reports it. -/
theorem paramOutdated_false_of_pyFieldDefEq {sp : FieldDef} {rp : ParamData}
    (h : pyFieldDefEq sp (construct_schema_definition rp) = true) :
    paramOutdated sp (construct_schema_definition rp) = false := by
  unfold pyFieldDefEq at h
  rw [Bool.and_eq_true, Bool.and_eq_true, Bool.and_eq_true, Bool.and_eq_true] at h
  obtain ⟨⟨⟨⟨ht, hd⟩, hv⟩, _⟩, hn⟩ := h
  have h2 := pyValEq_getD_of_pyOptEq hd
  have h3 := valueMismatch_of_pyOptEq hv
  have h4 : (match (construct_schema_definition rp).regex with
      | some r => !(pyOptEq sp.regex (some r))
      | none => false) = false := rfl
  have h5 : (match (construct_schema_definition rp).nestedSchema with
      | some ens => typeIs (construct_schema_definition rp).type "array" &&
          nestedMismatch (sp.nestedSchema.getD []) ens
      | none => false) = false := by
    cases hns : (construct_schema_definition rp).nestedSchema with
    | none => rfl
    | some ens =>
      rw [hns] at hn
      cases hsn : sp.nestedSchema with
      | none => rw [hsn] at hn; simp at hn
      | some cs =>
        rw [hsn] at hn
        have h6 : nestedMismatch cs ens = false := nestedMismatch_of_pyNestedEq hn
        simp [hsn, h6]
  unfold paramOutdated
  simp only [ht, h2, h3, h4, h5, Bool.not_true, Bool.or_false, Bool.false_or]

/-! ### C1: health-resync agreement -/

/-- C1 (corrected): only one direction of the claimed agreement holds —
every parameter name in the health report names a field whose current
definition differs (as a Python dict) from the constructed canonical
one, so the full resync would indeed change it.  The claimed converse is
false (see the counterexample): health compares under sentinel/number
normalization and ignores top-level ghost keys, so a field can differ
from canonical yet be reported healthy. -/
theorem c1_health_implies_resync_change (D : Doc) (R : Repo) (p : String)
    (h : p ∈ check_schema_health D R) :
    ∃ sp rp, (p, sp) ∈ D ∧ lookup R p = some rp ∧
      pyFieldDefEq sp (construct_schema_definition rp) = false := by
  obtain ⟨kv, hf, hfst⟩ := List.mem_map.mp h
  obtain ⟨hmem, hpred⟩ := List.mem_filter.mp hf
  unfold healthPred at hpred
  by_cases hres : reservedName kv.1 = true
  · rw [if_pos hres] at hpred
    simp at hpred
  · rw [if_neg hres] at hpred
    cases hR : lookup R kv.1 with
    | none =>
      rw [hR] at hpred
      simp at hpred
    | some rp =>
      rw [hR] at hpred
      have hpred' : paramOutdated kv.2 (construct_schema_definition rp) = true := hpred
      refine ⟨kv.2, rp, ?_, ?_, ?_⟩
      · rw [← hfst]
        exact hmem
      · rw [← hfst]
        exact hR
      · cases hb : pyFieldDefEq kv.2 (construct_schema_definition rp) with
        | false => rfl
        | true =>
          have hfalse := paramOutdated_false_of_pyFieldDefEq hb
          rw [hpred'] at hfalse
          cases hfalse

/-- Witness for C1: a document whose parameter `"p"` has a type drift is
reported, and its definition indeed differs from the canonical one. -/
theorem c1_health_implies_resync_change_witness :
    ∃ sp rp,
      ("p", sp) ∈ ([("p", { type := some (JVal.s "number") })] : Doc) ∧
      lookup ([("p", { type := some (JVal.s "string") })] : Repo) "p" = some rp ∧
      pyFieldDefEq sp (construct_schema_definition rp) = false :=
  c1_health_implies_resync_change
    [("p", { type := some (JVal.s "number") })]
    [("p", { type := some (JVal.s "string") })]
    "p" (by decide)

/-- C1 counterexample: the document field `"p"` stores `value: "Any"`
while the canonical definition has no `value` key at all.  The health
check normalizes both to `None` and reports nothing, yet the full resync
would replace the field with the canonical definition, which differs
from it as a Python dict — so "reported iff resync would change it" is
false in the right-to-left direction. -/
theorem c1_health_resync_agreement_cex :
    check_schema_health
      [("p", { type := some (JVal.s "string"), description := some (JVal.s ""),
               value := some (JVal.s "Any") })]
      [("p", { type := some (JVal.s "string"), description := some (JVal.s "") })]
      = [] ∧
    pyFieldDefEq
      { type := some (JVal.s "string"), description := some (JVal.s ""),
        value := some (JVal.s "Any") }
      (construct_schema_definition
        { type := some (JVal.s "string"), description := some (JVal.s "") })
      = false ∧
    lookup (update_schema_full
        [("p", { type := some (JVal.s "string"), description := some (JVal.s ""),
                 value := some (JVal.s "Any") })]
        [("p", { type := some (JVal.s "string"), description := some (JVal.s "") })]).1
        "p"
      = some (construct_schema_definition
          { type := some (JVal.s "string"), description := some (JVal.s "") }) :=
  ⟨by decide, by decide, rfl⟩

/-! ### C10: ghost-key detection in the nested comparison -/

/-- C10 (confirmed): for an array parameter, a nested document entry
that carries one of the compared keys (`type`/`value`/`regex`/
`description`) which is absent from the canonical nested entry makes the
parameter reported as outdated — regardless of the normalized
comparison, so in particular even when the normalized values compare
equal (e.g. a nested `regex: ""` against an absent canonical regex). -/
theorem c10_nested_ghost_key_reported
    (D : Doc) (R : Repo) (p nk key : String) (sp : FieldDef) (rp : ParamData)
    (rns : List (String × NProps)) (np cv : NProps)
    (hD : (p, sp) ∈ D) (hres : reservedName p = false)
    (hR : lookup R p = some rp)
    (hty : rp.type = some (JVal.s "array"))
    (hns : rp.nestedSchema = some rns)
    (hnp : lookup rns nk = some np)
    (hcv : lookup (sp.nestedSchema.getD []) nk = some cv)
    (hkey : key ∈ (["type", "value", "regex", "description"] : List String))
    (hghost : (nvGet cv key).isSome = true)
    (habsent : nvGet (constructNested np) key = none) :
    p ∈ check_schema_health D R := by
  have hep : (construct_schema_definition rp).nestedSchema
      = some (rns.map fun kv => (kv.1, constructNested kv.2)) := by
    simp [construct_schema_definition, typeIs, hty, hns]
  have hept : (construct_schema_definition rp).type = some (JVal.s "array") := by
    simp [construct_schema_definition, hty]
  have hkm : nestedKeyMismatch cv (constructNested np) key = true := by
    unfold nestedKeyMismatch
    simp [habsent, hghost]
  have hentry : nestedEntryMismatch cv (constructNested np) = true := by
    unfold nestedEntryMismatch
    rw [List.any_eq_true]
    exact ⟨key, hkey, hkm⟩
  have hmm : nestedMismatch (sp.nestedSchema.getD [])
      (rns.map fun kv => (kv.1, constructNested kv.2)) = true := by
    unfold nestedMismatch
    by_cases hlen : (sp.nestedSchema.getD []).length
        ≠ (rns.map fun kv => (kv.1, constructNested kv.2)).length
    · rw [if_pos hlen]
    · rw [if_neg hlen, List.any_eq_true]
      have hlk : lookup (rns.map fun kv => (kv.1, constructNested kv.2)) nk
          = some (constructNested np) := by
        rw [lookup_map_value, hnp]
        rfl
      refine ⟨(nk, constructNested np), lookup_eq_some_mem hlk, ?_⟩
      rw [hcv]
      exact hentry
  have hout : paramOutdated sp (construct_schema_definition rp) = true := by
    unfold paramOutdated
    rw [hep, hept]
    simp [typeIs, hmm]
  apply List.mem_map.mpr
  refine ⟨(p, sp), List.mem_filter.mpr ⟨hD, ?_⟩, rfl⟩
  unfold healthPred
  rw [if_neg (by rw [hres]; exact Bool.false_ne_true), hR]
  exact hout

/-- Witness for C10: the parameter `"arr"` whose nested entry `"q"`
carries `regex: ""` while the canonical nested entry has no regex; the
normalized values compare equal, and the parameter is still reported. -/
theorem c10_nested_ghost_key_reported_witness :
    "arr" ∈ check_schema_health
      [("arr", { type := some (JVal.s "array"),
                 description := some (JVal.s ""),
                 nestedSchema := some
                   [("q", { type := some (JVal.s "number"),
                            description := some (JVal.s ""),
                            regex := some (JVal.s "") })] })]
      [("arr", { type := some (JVal.s "array"),
                 description := some (JVal.s ""),
                 nestedSchema := some
                   [("q", { type := some (JVal.s "number"),
                            description := some (JVal.s "") })] })] :=
  c10_nested_ghost_key_reported _ _ "arr" "q" "regex"
    { type := some (JVal.s "array"), description := some (JVal.s ""),
      nestedSchema := some
        [("q", { type := some (JVal.s "number"), description := some (JVal.s ""),
                 regex := some (JVal.s "") })] }
    { type := some (JVal.s "array"), description := some (JVal.s ""),
      nestedSchema := some
        [("q", { type := some (JVal.s "number"), description := some (JVal.s "") })] }
    [("q", { type := some (JVal.s "number"), description := some (JVal.s "") })]
    { type := some (JVal.s "number"), description := some (JVal.s "") }
    { type := some (JVal.s "number"), description := some (JVal.s ""),
      regex := some (JVal.s "") }
    (by simp) rfl rfl rfl rfl rfl rfl (by decide) rfl rfl

end EventsValidator
